import Mathlib

/-!
Verification of the concurrent novel-download pipeline in `src/run/run.py`
(repository dahisea/tomato).

The embedding below translates the pieces of `run.py` that the claims are
about:

* a small JSON value type `JVal` models the parsed bodies returned by
  `resp.json()`; a network-level outcome is `Except String JVal`, where
  `Except.error` stands for any exception raised before/while parsing the
  response (connection error, timeout, `raise_for_status`, malformed JSON);
* `download_chapter` (run.py lines 129-141) becomes a total function
  `download_chapter : Except String JVal → Option String`; totality mirrors
  the bare `except: pass` that swallows every exception at that layer;
* `get_book_metadata` (lines 62-112) and `get_chapter_list` (lines 114-127)
  become functions into `Except Nat _` where `Except.error 1` stands for
  `sys.exit(1)`;
* the orchestrator in `download_novel` (lines 228-239) is modelled with the
  completion order of `as_completed` made explicit: a list `order` of task
  indices (a permutation of `List.range n`, since `as_completed` yields every
  submitted future exactly once).  The final `chap_contents.sort(key=...)`
  is CPython's stable `list.sort`; any two stable sorts with the same key
  agree extensionally, so it is modelled by a stable insertion sort.

Machine details deliberately outside the modelled input space (no claim
depends on them): float formatting of `word_count`, non-string values in
string-typed JSON fields that CPython would only stringify or fault on much
later, and non-ASCII decimal digits inside the `<p idx="N">` tag.
-/

/-- JSON values as returned by `resp.json()`.  Numbers are modelled as
integers (the status `code` and the fields the claims touch are integral);
objects keep their fields as an association list. -/
inductive JVal where
  | jnull : JVal
  | jbool : Bool → JVal
  | jnum : Int → JVal
  | jstr : String → JVal
  | jarr : List JVal → JVal
  | jobj : List (String × JVal) → JVal

open JVal

/-- First value bound to a key in a JSON object, `none` if absent.
Models Python `dict` lookup (JSON object keys are unique, so "first" is
exact). -/
def lookupField : List (String × JVal) → String → Option JVal
  | [], _ => none
  | (k, v) :: rest, key => if k == key then some v else lookupField rest key

/-- Python `x == 0` for a value obtained with `dict.get` (`none` is Python
`None`).  `False == 0` is true in Python because `bool` is an `int`
subclass. -/
def pyEqZero : Option JVal → Bool
  | some (jnum n) => n == 0
  | some (jbool b) => !b
  | _ => false

/-- Python truthiness of a JSON value. -/
def jTruthy : JVal → Bool
  | jnull => false
  | jbool b => b
  | jnum n => !(n == 0)
  | jstr s => !(s == "")
  | jarr xs => !xs.isEmpty
  | jobj fs => !fs.isEmpty

/-- Whether `needle` occurs as a contiguous substring, on exploded
strings. -/
def charsContain (needle hay : List Char) : Bool :=
  match hay with
  | [] => needle.isEmpty
  | _ :: rest => needle.isPrefixOf hay || charsContain needle rest

/-- Python `key in v` where `v` came from JSON: key containment for a dict,
membership for a list, substring test for a string; `none` models the
`TypeError` raised on the remaining types (swallowed by the caller's bare
`except`). -/
def pyIn (key : String) : JVal → Option Bool
  | jobj fs => some (fs.any (fun p => p.1 == key))
  | jarr xs => some (xs.any (fun v => match v with | jstr s => s == key | _ => false))
  | jstr s => some (charsContain key.data s.data)
  | _ => none

/-- Characters removed by Python `str.strip()` with no argument.  (CPython
also strips the rarer Unicode whitespace; the ASCII set suffices for the
inputs the claims exercise.) -/
def pyWhitespace (c : Char) : Bool :=
  c == ' ' || c == '\t' || c == '\n' || c == '\r' || c == '\x0b' || c == '\x0c'

/-- Python `str.strip()` on an exploded string. -/
def pyStrip (l : List Char) : List Char :=
  ((l.dropWhile pyWhitespace).reverse.dropWhile pyWhitespace).reverse

/-- Python `str.replace(pat, rep)`: leftmost non-overlapping occurrences,
scanning left to right.  The `fuel` argument makes the recursion structural;
it is called with `fuel = length of the input`, and every step consumes at
least one input character (the patterns used are non-empty), so the
fuel-exhausted arm is never reached. -/
def replaceGo (pat rep : List Char) : Nat → List Char → List Char
  | _, [] => []
  | 0, l => l
  | fuel + 1, c :: rest =>
    if pat.isPrefixOf (c :: rest) then
      rep ++ replaceGo pat rep fuel ((c :: rest).drop pat.length)
    else
      c :: replaceGo pat rep fuel rest

/-- Python `str.replace` on exploded strings. -/
def replaceAll (pat rep l : List Char) : List Char :=
  replaceGo pat rep l.length l

/-- The fixed opening of the tag pattern `<p idx="\d+">` of run.py line 138
(`>` in the source is the character `>`). -/
def tagOpenChars : List Char := "<p idx=\"".data

/-- The fixed closing `">` of the tag pattern. -/
def tagCloseChars : List Char := "\">".data

/-- Attempt to match the regex `<p idx="\d+">` at the head of `l`; on
success return the remainder after the match.  `\d+` is greedy and the
following character `"` is not a digit, so maximal-munch needs no
backtracking. -/
def tagRemainder (l : List Char) : Option (List Char) :=
  if tagOpenChars.isPrefixOf l then
    let afterOpen := l.drop tagOpenChars.length
    let digits := afterOpen.takeWhile Char.isDigit
    let afterDigits := afterOpen.dropWhile Char.isDigit
    if !digits.isEmpty && tagCloseChars.isPrefixOf afterDigits then
      some (afterDigits.drop tagCloseChars.length)
    else none
  else none

/-- `re.sub(r'<p idx="\d+">', '', ·)`: scan left to right, delete each
match, continue after it.  Fuel as in `replaceGo`: every step strictly
shortens the input (a match is at least 11 characters), so `fuel = length`
never runs out. -/
def removeTagsGo : Nat → List Char → List Char
  | _, [] => []
  | 0, l => l
  | fuel + 1, c :: rest =>
    match tagRemainder (c :: rest) with
    | some rem => removeTagsGo fuel rem
    | none => c :: removeTagsGo fuel rest

/-- `re.sub(r'<p idx="\d+">', '', l)` on an exploded string. -/
def removeTags (l : List Char) : List Char :=
  removeTagsGo l.length l

/-- run.py lines 137-138: the cleaning applied to a successfully fetched
chapter body, in source order — `</p>` to newline, `&quot;` and `&amp;`
decoded, `<p idx="N">` tags stripped, then `.strip()`. -/
def cleanChapterContent (content : String) : String :=
  let step1 := replaceAll "</p>".data "\n".data content.data
  let step2 := replaceAll "&quot;".data "\"".data step1
  let step3 := replaceAll "&amp;".data "&".data step2
  String.mk (pyStrip (removeTags step3))

/-- run.py lines 129-141, `download_chapter`.  The argument is the outcome
of `session.post(...).json()`: `Except.error` for any raised exception
(timeout, connection error, non-JSON body), `Except.ok` for a parsed body.
All failure paths end in the bare `except: pass` / fall-through
`return None`, which the `none` arms reproduce; the function is total, so it
never raises to its caller. -/
def download_chapter (resp : Except String JVal) : Option String :=
  match resp with
  | .error _ => none
  | .ok data =>
    match data with
    | jobj fs =>
      if pyEqZero (lookupField fs "code") then
        match pyIn "content" ((lookupField fs "data").getD (jobj [])) with
        | none => none
        | some false => none
        | some true =>
          match lookupField fs "data" with
          | some (jobj ds) =>
            match lookupField ds "content" with
            | some (jstr content) => some (cleanChapterContent content)
            | _ => none
          | _ => none
      else none
    | _ => none

/-- run.py lines 54-55, `sanitize_filename`: delete the characters
`\/*?:"<>|`, strip surrounding whitespace, keep the first 100 characters. -/
def bannedFilenameChar (c : Char) : Bool :=
  c == '\\' || c == '/' || c == '*' || c == '?' || c == ':' || c == '"' ||
  c == '<' || c == '>' || c == '|'

/-- `sanitize_filename` as a function on `String`. -/
def sanitize_filename (name : String) : String :=
  String.mk ((pyStrip (name.data.filter (fun c => !bannedFilenameChar c))).take 100)

/-- The two metadata fields consumed by the filename logic and the claims.
The remaining fields of run.py's metadata dict (summary, cover_url,
category, status, word_count, readers) are never read by any claim and are
not modelled. -/
structure BookMeta where
  book_name : String
  author : String
deriving DecidableEq

/-- run.py lines 66-75: the sentinel defaults installed before the request
(restricted to the modelled fields). -/
def defaultBookMeta (book_id : String) : BookMeta :=
  { book_name := "未知书名_" ++ book_id, author := "未知作者" }

/-- run.py lines 101-102: strip a leading `《` and trailing `》` pair from
the book name. -/
def stripTitleBrackets (bn : String) : String :=
  if (bn.data.head? == some '《') && (bn.data.getLast? == some '》') then
    String.mk ((bn.data.drop 1).dropLast)
  else bn

/-- run.py lines 62-112, `get_book_metadata`, restricted to the modelled
fields.  `Except.error 1` stands for `sys.exit(1)`: it is reached when the
request raises, the body is not a JSON object (`data.get` would raise, the
`except` prints and exits), `code != 0`, the `data` field is falsy, or the
`data` field is truthy but `data["data"][0]` is not a dict (subscript or
`.get` raises inside the `try`, and the handler exits).  The per-field
`dict.get` defaults of lines 91-92 are reproduced; the memoisation cache of
line 63 is invisible on a fresh run and not modelled. -/
def get_book_metadata (book_id : String) (resp : Except String JVal) : Except Nat BookMeta :=
  match resp with
  | .error _ => .error 1
  | .ok data =>
    match data with
    | jobj fs =>
      if pyEqZero (lookupField fs "code") && jTruthy ((lookupField fs "data").getD jnull) then
        match lookupField fs "data" with
        | some (jarr (jobj bf :: _)) =>
          let bn :=
            match lookupField bf "book_name" with
            | some (jstr s) => s
            | _ => (defaultBookMeta book_id).book_name
          let au :=
            match lookupField bf "author" with
            | some (jstr s) => s
            | _ => (defaultBookMeta book_id).author
          .ok { book_name := stripTitleBrackets bn, author := au }
        | _ => .error 1
      else .error 1
    | _ => .error 1

/-- One entry of the chapter list built at run.py line 123:
`{"title": chapter.get("title", ""), "item_id": chapter["itemId"]}`. -/
structure Chapter where
  title : String
  item_id : String
deriving DecidableEq

/-- run.py lines 114-127, `get_chapter_list`.  `Except.error 1` is
`sys.exit(1)`, reached when the request raises, the body is not an object,
`code != 0` (the `if` is skipped and control falls through to
`sys.exit(1)`), or the nested `data.chapterListWithVolume` shape is not a
list of lists of dicts each carrying `itemId` (a `KeyError`/`TypeError`/
`AttributeError` inside the `try`, whose handler falls through to the same
`sys.exit(1)`). -/
def extractChapter (v : JVal) : Option Chapter :=
  match v with
  | jobj cf =>
    match lookupField cf "itemId" with
    | some (jstr iid) =>
      some { title := (match lookupField cf "title" with
                       | some (jstr t) => t
                       | _ => ""),
             item_id := iid }
    | _ => none
  | _ => none

/-- Flatten one volume (a JSON array of chapter objects). -/
def extractVolume (v : JVal) : Option (List Chapter) :=
  match v with
  | jarr chs => chs.mapM extractChapter
  | _ => none

/-- `get_chapter_list` proper. -/
def get_chapter_list (resp : Except String JVal) : Except Nat (List Chapter) :=
  match resp with
  | .error _ => .error 1
  | .ok data =>
    match data with
    | jobj fs =>
      if pyEqZero (lookupField fs "code") then
        match lookupField fs "data" with
        | some (jobj ds) =>
          match lookupField ds "chapterListWithVolume" with
          | some (jarr volumes) =>
            match volumes.mapM extractVolume with
            | some chLists => .ok chLists.flatten
            | none => .error 1
          | _ => .error 1
        | _ => .error 1
      else .error 1
    | _ => .error 1

/-- What `future.result()` delivers for one chapter task in run.py
lines 231-237: either the `Optional[str]` returned by `download_chapter`,
or an exception whose `str(e)` is the carried message. -/
inductive FetchOutcome where
  | result : Option String → FetchOutcome
  | exn : String → FetchOutcome

/-- run.py line 235 placeholder `f"【章节 {idx+1} 下载失败】"` substituted when
`download_chapter` returned a falsy value (`None` or `""`). -/
def failText (idx : Nat) : String :=
  "【章节 " ++ Nat.repr (idx + 1) ++ " 下载失败】"

/-- run.py line 237 placeholder `f"【章节 {idx+1} 下载失败：{str(e)}】"`
substituted when `future.result()` raised. -/
def exnText (idx : Nat) (msg : String) : String :=
  "【章节 " ++ Nat.repr (idx + 1) ++ " 下载失败：" ++ msg ++ "】"

/-- One element appended to `chap_contents` (run.py lines 232-237). -/
structure ChapResult where
  title : String
  content : String
deriving DecidableEq

/-- Placeholder chapter used only to give `List.getD` a default; the index
always comes from the futures map, so it is in range and the default is
never read. -/
def defaultChapter : Chapter := { title := "", item_id := "" }

/-- The record appended for the task of index `idx` when it completes
(run.py lines 232-237): Python `content or placeholder` substitutes the
placeholder exactly when `content` is `None` or the empty string. -/
def collectResult (chapters : List Chapter) (outcomes : Nat → FetchOutcome) (idx : Nat) :
    ChapResult :=
  match outcomes idx with
  | .result content =>
    { title := (chapters.getD idx defaultChapter).title,
      content :=
        match content with
        | some c => if c = "" then failText idx else c
        | none => failText idx }
  | .exn msg =>
    { title := (chapters.getD idx defaultChapter).title, content := exnText idx msg }

/-- The sort key of run.py line 239:
`chapters.index(next(c for c in chapters if c["title"] == x["title"]))`,
i.e. the index of the FIRST chapter whose title equals the result's title
(`next` picks the first title match, and `list.index` of that very element
returns its own first position). -/
def titleKey (chapters : List Chapter) (r : ChapResult) : Nat :=
  chapters.findIdx (fun c => c.title == r.title)

/-- Insert `x` after every element whose key is `≤ key x` — the insertion
step of a stable insertion sort. -/
def stableInsertByKey (key : ChapResult → Nat) (x : ChapResult) :
    List ChapResult → List ChapResult
  | [] => [x]
  | y :: ys =>
    if key y ≤ key x then y :: stableInsertByKey key x ys
    else x :: y :: ys

/-- Stable sort by key, processing elements left to right.  CPython
`list.sort(key=...)` is documented stable, and any two stable sorts with
the same key agree on every input, so this is extensionally exact. -/
def stableSortByKey (key : ChapResult → Nat) (l : List ChapResult) : List ChapResult :=
  l.foldl (fun acc x => stableInsertByKey key x acc) []

/-- run.py lines 228-239: the orchestrator's collection loop plus the final
sort.  `order` is the completion order in which `as_completed` yields the
futures — a permutation of `0 .. n-1` since every submitted future is
yielded exactly once; `outcomes` is what each task's `future.result()`
delivers. -/
def downloadNovelResults (chapters : List Chapter) (outcomes : Nat → FetchOutcome)
    (order : List Nat) : List ChapResult :=
  stableSortByKey (titleKey chapters) (order.map (collectResult chapters outcomes))

/-- run.py line 229, `ThreadPoolExecutor(max_workers=...)`: CPython's
constructor raises `ValueError("max_workers must be greater than 0")` when
`max_workers <= 0`; otherwise all tasks are submitted and collected. -/
def executorRun (maxWorkers : Int) (chapters : List Chapter) (outcomes : Nat → FetchOutcome)
    (order : List Nat) : Except String (List ChapResult) :=
  if maxWorkers ≤ 0 then .error "max_workers must be greater than 0"
  else .ok (downloadNovelResults chapters outcomes order)

/-- Substring test `'未知' in fname` of run.py line 241. -/
def hasUnknown (s : String) : Bool :=
  charsContain "未知".data s.data

/-- run.py line 240: `f"{sanitize_filename(book_name)}-{sanitize_filename(author)}"`. -/
def baseName (md : BookMeta) : String :=
  sanitize_filename md.book_name ++ "-" ++ sanitize_filename md.author

/-- run.py lines 240-242: append `_{book_id}` exactly when the substring
`未知` occurs in the sanitized `title-author` string. -/
def fnameOf (md : BookMeta) (book_id : String) : String :=
  if hasUnknown (baseName md) then baseName md ++ "_" ++ book_id
  else baseName md

/-- run.py line 243: `os.path.join('download', f"{fname}.{fmt}")` on a
POSIX system. -/
def outputName (md : BookMeta) (book_id : String) (fmt : String) : String :=
  "download/" ++ fnameOf md book_id ++ "." ++ fmt

/-- Terminal behaviour of one `download_novel` run (run.py lines 214-250):
`exited c` is `sys.exit(c)`; `crashed m` is an uncaught exception with
message `m` (the interpreter then terminates abnormally); `noChapters` is
the early `return` of lines 222-224; `finished` carries the output file
name and the ordered chapter records handed to the builder. -/
inductive RunOutcome where
  | exited : Nat → RunOutcome
  | crashed : String → RunOutcome
  | noChapters : RunOutcome
  | finished : String → List ChapResult → RunOutcome
deriving DecidableEq

/-- run.py lines 214-250, `download_novel`: metadata fetch, chapter-list
fetch, empty-list check, the bounded-pool fetch/collect/sort, and the
output-name computation.  Printing, the progress bar and the builder call
are side effects outside the returned value. -/
def download_novel (book_id : String) (metaResp chapResp : Except String JVal)
    (maxWorkers : Int) (outcomes : Nat → FetchOutcome) (order : List Nat)
    (fmt : String) : RunOutcome :=
  match get_book_metadata book_id metaResp with
  | .error c => .exited c
  | .ok md =>
    match get_chapter_list chapResp with
    | .error c => .exited c
    | .ok chapters =>
      if chapters.isEmpty then .noChapters
      else
        match executorRun maxWorkers chapters outcomes order with
        | .error m => .crashed m
        | .ok results => .finished (outputName md book_id fmt) results

/-- The chapter records that `build_epub` actually emits (run.py lines
188-190): records with falsy (empty) content are skipped. -/
def epubKeptChapters (l : List ChapResult) : List ChapResult :=
  l.filter (fun c => !(c.content == ""))

/-- A metadata response on which run.py lines 103-109 exit: the request
raised, the body is not a JSON object (`data.get` raises into the handler),
or the status `code` is not 0. -/
def metaFetchFailed (resp : Except String JVal) : Bool :=
  match resp with
  | .error _ => true
  | .ok (jobj fs) => !(pyEqZero (lookupField fs "code"))
  | .ok _ => true

/-- A chapter-content response that IS a well-formed success for
`download_chapter`: a JSON object with `code == 0` and a string `content`
field inside a `data` object. -/
def wellFormedChapterSuccess (resp : Except String JVal) : Bool :=
  match resp with
  | .ok (jobj fs) =>
    pyEqZero (lookupField fs "code") &&
    (match lookupField fs "data" with
     | some (jobj ds) =>
       (match lookupField ds "content" with
        | some (jstr _) => true
        | _ => false)
     | _ => false)
  | _ => false

/-! ## Helper lemmas -/

/-- Inserting with `stableInsertByKey` permutes to consing. -/
theorem stableInsertByKey_perm (key : ChapResult → Nat) (x : ChapResult) :
    ∀ l : List ChapResult, List.Perm (stableInsertByKey key x l) (x :: l)
  | [] => List.Perm.refl _
  | y :: ys => by
    by_cases h : key y ≤ key x
    · simp only [stableInsertByKey, if_pos h]
      exact ((stableInsertByKey_perm key x ys).cons y).trans (List.Perm.swap x y ys)
    · simp only [stableInsertByKey, if_neg h]
      exact List.Perm.refl _

/-- Folding stable insertions over `l` starting from `acc` permutes to
`acc ++ l`. -/
theorem stableSortByKey_aux (key : ChapResult → Nat) :
    ∀ (l acc : List ChapResult),
      List.Perm (l.foldl (fun acc x => stableInsertByKey key x acc) acc) (acc ++ l)
  | [], acc => by simp
  | x :: xs, acc => by
    have ih := stableSortByKey_aux key xs (stableInsertByKey key x acc)
    have h1 : List.Perm (stableInsertByKey key x acc ++ xs) ((x :: acc) ++ xs) :=
      (stableInsertByKey_perm key x acc).append_right xs
    have h2 : List.Perm ((x :: acc) ++ xs) (acc ++ x :: xs) := by
      simpa using List.perm_middle.symm
    simpa [List.foldl_cons] using ih.trans (h1.trans h2)

/-- The stable sort is a permutation of its input. -/
theorem stableSortByKey_perm (key : ChapResult → Nat) (l : List ChapResult) :
    List.Perm (stableSortByKey key l) l := by
  simpa [stableSortByKey] using stableSortByKey_aux key l []

/-- The orchestrator's placeholder for a falsy fetch result is never the
empty string. -/
theorem failText_ne_empty (i : Nat) : failText i ≠ "" := by
  intro h
  have hl := congrArg String.length h
  rw [failText, String.length_append, String.length_append] at hl
  have h1 : ("【章节 " : String).length = 4 := rfl
  have h2 : (" 下载失败】" : String).length = 6 := rfl
  have h0 : ("" : String).length = 0 := rfl
  omega

/-- The orchestrator's placeholder for a raising task is never the empty
string. -/
theorem exnText_ne_empty (i : Nat) (m : String) : exnText i m ≠ "" := by
  intro h
  have hl := congrArg String.length h
  rw [exnText, String.length_append, String.length_append, String.length_append,
    String.length_append] at hl
  have h1 : ("【章节 " : String).length = 4 := rfl
  have h2 : (" 下载失败：" : String).length = 6 := rfl
  have h3 : ("】" : String).length = 1 := rfl
  have h0 : ("" : String).length = 0 := rfl
  omega

/-- A key bound in an association list makes `List.any` over the keys
true. -/
theorem lookupField_any {ds : List (String × JVal)} {k : String} {v : JVal}
    (h : lookupField ds k = some v) : (ds.any fun p => p.1 == k) = true := by
  induction ds with
  | nil => simp [lookupField] at h
  | cons a t ih =>
    rw [lookupField] at h
    by_cases hk : a.1 == k
    · simp [List.any_cons, hk]
    · rw [if_neg hk] at h
      simp [List.any_cons, hk, ih h]

/-! ## Claim C2 -/

/-- Claim C2: for every chapter list, every family of task outcomes and
every completion order (a permutation of the task indices, as delivered by
`as_completed`), the orchestrator returns exactly `chapters.length`
ChapterResults — a permutation of one collected record per input index —
and each input's record carries its original title and either the fetched
non-empty content or a failure placeholder.  No chapter is dropped,
regardless of completion order. -/
theorem claim_C2_one_result_per_chapter (chapters : List Chapter)
    (outcomes : Nat → FetchOutcome) (order : List Nat)
    (h : List.Perm order (List.range chapters.length)) :
    (downloadNovelResults chapters outcomes order).length = chapters.length ∧
    List.Perm (downloadNovelResults chapters outcomes order)
      ((List.range chapters.length).map (collectResult chapters outcomes)) ∧
    ∀ i (hi : i < chapters.length),
      (collectResult chapters outcomes i).title = (chapters.get ⟨i, hi⟩).title ∧
      ((∃ c, outcomes i = FetchOutcome.result (some c) ∧ c ≠ "" ∧
          (collectResult chapters outcomes i).content = c) ∨
       (collectResult chapters outcomes i).content = failText i ∨
       (∃ m, outcomes i = FetchOutcome.exn m ∧
          (collectResult chapters outcomes i).content = exnText i m)) := by
  have hperm : List.Perm (downloadNovelResults chapters outcomes order)
      ((List.range chapters.length).map (collectResult chapters outcomes)) := by
    unfold downloadNovelResults
    exact (stableSortByKey_perm _ _).trans (h.map _)
  refine ⟨?_, hperm, ?_⟩
  · rw [hperm.length_eq, List.length_map, List.length_range]
  · intro i hi
    constructor
    · cases ho : outcomes i <;>
        simp [collectResult, ho, List.getD_eq_getElem?_getD,
          List.getElem?_eq_getElem hi, List.get_eq_getElem]
    · cases ho : outcomes i with
      | result c =>
        cases c with
        | none => exact Or.inr (Or.inl (by simp [collectResult, ho]))
        | some s =>
          by_cases hs : s = ""
          · exact Or.inr (Or.inl (by simp [collectResult, ho, hs]))
          · exact Or.inl ⟨s, rfl, hs, by simp [collectResult, ho, hs]⟩
      | exn m => exact Or.inr (Or.inr ⟨m, rfl, by simp [collectResult, ho]⟩)

/-- Concrete chapter list used by the C2 witness. -/
def w2Chapters : List Chapter :=
  [{ title := "第一章", item_id := "9001" }, { title := "第二章", item_id := "9002" }]

/-- Concrete task outcomes used by the C2 witness: task 0 succeeds, task 1
returns `None`. -/
def w2Outcomes : Nat → FetchOutcome :=
  fun i => if i == 0 then FetchOutcome.result (some "text-a") else FetchOutcome.result none

/-- Witness for C2 at a concrete input with completion order `[1, 0]`. -/
theorem claim_C2_witness :
    (downloadNovelResults w2Chapters w2Outcomes [1, 0]).length = w2Chapters.length :=
  (claim_C2_one_result_per_chapter w2Chapters w2Outcomes [1, 0] (by decide)).1

/-! ## Claim C10 -/

/-- Claim C10: every ChapterResult produced by the orchestrator has
non-empty content — a falsy fetch result (`None` or `""`) is replaced by
the (non-empty) placeholder — and therefore `build_epub`'s
skip-empty-content filter keeps every record. -/
theorem claim_C10_nonempty_content (chapters : List Chapter)
    (outcomes : Nat → FetchOutcome) (order : List Nat) :
    (∀ r ∈ downloadNovelResults chapters outcomes order, r.content ≠ "") ∧
    epubKeptChapters (downloadNovelResults chapters outcomes order) =
      downloadNovelResults chapters outcomes order := by
  have hmem : ∀ r ∈ downloadNovelResults chapters outcomes order, r.content ≠ "" := by
    intro r hr
    have hperm := stableSortByKey_perm (titleKey chapters)
      (order.map (collectResult chapters outcomes))
    have hr2 : r ∈ order.map (collectResult chapters outcomes) := by
      unfold downloadNovelResults at hr
      exact hperm.mem_iff.mp hr
    obtain ⟨i, _, rfl⟩ := List.mem_map.mp hr2
    cases ho : outcomes i with
    | result c =>
      cases c with
      | none => simpa [collectResult, ho] using failText_ne_empty i
      | some s =>
        by_cases hs : s = ""
        · simpa [collectResult, ho, hs] using failText_ne_empty i
        · simp [collectResult, ho, hs]
    | exn m => simpa [collectResult, ho] using exnText_ne_empty i m
  refine ⟨hmem, ?_⟩
  unfold epubKeptChapters
  rw [List.filter_eq_self]
  intro a ha
  have h := hmem a ha
  simp only [Bool.not_eq_true', beq_eq_false_iff_ne, ne_eq]
  exact h

/-- Concrete chapter list used by the C10 witness. -/
def w10Chapters : List Chapter := [{ title := "序章", item_id := "8001" }]

/-- Concrete task outcomes used by the C10 witness. -/
def w10Outcomes : Nat → FetchOutcome := fun _ => FetchOutcome.result (some "正文")

/-- Witness for C10 at a concrete input. -/
theorem claim_C10_witness :
    ({ title := "序章", content := "正文" } : ChapResult).content ≠ "" ∧
    epubKeptChapters (downloadNovelResults w10Chapters w10Outcomes [0]) =
      downloadNovelResults w10Chapters w10Outcomes [0] :=
  ⟨(claim_C10_nonempty_content w10Chapters w10Outcomes [0]).1
      { title := "序章", content := "正文" } (by decide),
   (claim_C10_nonempty_content w10Chapters w10Outcomes [0]).2⟩

/-! ## Claim C1 -/

/-- Chapter list with a duplicated title, the input on which the title-based
reordering of run.py line 239 misbehaves. -/
def c1Chapters : List Chapter :=
  [{ title := "A", item_id := "i0" }, { title := "B", item_id := "i1" },
   { title := "A", item_id := "i2" }]

/-- Every fetch succeeds with distinct content per index. -/
def c1Outcomes : Nat → FetchOutcome :=
  fun i => FetchOutcome.result (some ("t" ++ Nat.repr i))

/-- Claim C1, evaluated at the failing input: with input titles
`[A, B, A]` the sort key of line 239 maps both `A` results to the first
`A`-index, so the returned title sequence is `[A, A, B]` — not the input
order `[A, B, A]` — even under the identity completion order.  The i-th
output does NOT carry the i-th input title. -/
theorem claim_C1_title_order_bug :
    (downloadNovelResults c1Chapters c1Outcomes [0, 1, 2]).map (fun r => r.title) =
      ["A", "A", "B"] ∧
    c1Chapters.map (fun c => c.title) = ["A", "B", "A"] ∧
    (downloadNovelResults c1Chapters c1Outcomes [0, 1, 2]).map (fun r => r.title) ≠
      c1Chapters.map (fun c => c.title) := by decide

/-! ## Claim C3 -/

/-- Two chapters sharing a title; only the task of index 1 fails. -/
def c3Chapters : List Chapter :=
  [{ title := "A", item_id := "i0" }, { title := "A", item_id := "i1" }]

/-- Fetch outcome family: index 1 returns `None`, index 0 succeeds. -/
def c3Outcomes : Nat → FetchOutcome :=
  fun i => if i == 1 then FetchOutcome.result none else FetchOutcome.result (some "text-0")

/-- Claim C3, evaluated at the failing input: the fetcher fails for index 1
only, yet under completion order `[1, 0]` (a valid permutation) the
placeholder — which does embed the 1-based number 2 — ends up at output
position 0 and the real content at position 1, because both results share
the sort key 0 and the stable sort preserves completion order.  The claim's
required layout (placeholder at position 1, real content at position 0)
does not hold. -/
theorem claim_C3_placeholder_position_bug :
    List.Perm [1, 0] (List.range c3Chapters.length) ∧
    downloadNovelResults c3Chapters c3Outcomes [1, 0] =
      [{ title := "A", content := "【章节 2 下载失败】" },
       { title := "A", content := "text-0" }] := by decide

/-! ## Claim C6 -/

/-- Two chapters sharing a title, with fixed deterministic per-chapter
fetch outputs. -/
def c6Chapters : List Chapter :=
  [{ title := "A", item_id := "i0" }, { title := "A", item_id := "i1" }]

/-- Deterministic fetcher stub: chapter 0 yields `x`, chapter 1 yields
`y`, on every run. -/
def c6Outcomes : Nat → FetchOutcome :=
  fun i => FetchOutcome.result (some (if i == 0 then "x" else "y"))

/-- Claim C6, evaluated at the failing input: two runs against the same
deterministic fetcher stub, differing only in internal completion order
(both valid permutations), return different ordered outputs, because
equal-title results keep completion order under the line-239 sort. -/
theorem claim_C6_rerun_not_identical :
    List.Perm [0, 1] (List.range c6Chapters.length) ∧
    List.Perm [1, 0] (List.range c6Chapters.length) ∧
    downloadNovelResults c6Chapters c6Outcomes [0, 1] ≠
      downloadNovelResults c6Chapters c6Outcomes [1, 0] := by decide

/-! ## Claim C4 -/

/-- A metadata response accepted by `get_book_metadata`. -/
def c4MetaResp : Except String JVal :=
  Except.ok (jobj [("code", jnum 0),
    ("data", jarr [jobj [("book_name", jstr "书"), ("author", jstr "人")]])])

/-- A chapter-list response with one chapter. -/
def c4ChapResp : Except String JVal :=
  Except.ok (jobj [("code", jnum 0),
    ("data", jobj [("chapterListWithVolume",
      jarr [jarr [jobj [("title", jstr "c1"), ("itemId", jstr "7001")]]])])])

/-- The chapter list extracted from `c4ChapResp`. -/
def c4Chapters : List Chapter := [{ title := "c1", item_id := "7001" }]

/-- All fetches succeed. -/
def c4Outcomes : Nat → FetchOutcome := fun _ => FetchOutcome.result (some "x")

/-- Counterexample to claim C4: with concurrency 0 and otherwise healthy
inputs, `download_novel` does not coerce the value and schedule the tasks —
`ThreadPoolExecutor(max_workers=0)` raises `ValueError` and the run
crashes. -/
theorem claim_C4_counterexample :
    download_novel "1234567890" c4MetaResp c4ChapResp 0 c4Outcomes [0] "txt" =
      RunOutcome.crashed "max_workers must be greater than 0" := by decide

/-- Claim C4 as amended: a concurrency value `≤ 0` is NOT coerced — the
executor constructor rejects it and the orchestrator crashes — while every
value `≥ 1` schedules and collects all tasks. -/
theorem claim_C4_amended_no_coercion (w : Int) (chapters : List Chapter)
    (outcomes : Nat → FetchOutcome) (order : List Nat) :
    (w ≤ 0 → executorRun w chapters outcomes order =
        Except.error "max_workers must be greater than 0") ∧
    (0 < w → executorRun w chapters outcomes order =
        Except.ok (downloadNovelResults chapters outcomes order)) := by
  constructor
  · intro h
    simp [executorRun, h]
  · intro h
    rw [executorRun, if_neg (by omega)]

/-- Witness for the amended C4 at concurrency 0 and 4. -/
theorem claim_C4_amended_witness :
    executorRun 0 c4Chapters c4Outcomes [0] =
      Except.error "max_workers must be greater than 0" ∧
    executorRun 4 c4Chapters c4Outcomes [0] =
      Except.ok (downloadNovelResults c4Chapters c4Outcomes [0]) :=
  ⟨(claim_C4_amended_no_coercion 0 c4Chapters c4Outcomes [0]).1 (by decide),
   (claim_C4_amended_no_coercion 4 c4Chapters c4Outcomes [0]).2 (by decide)⟩

/-! ## Claim C5 -/

/-- If `download_chapter` returns a value, its input was a well-formed
success: a JSON object with `code == 0` and a string `content` inside a
`data` object. -/
theorem download_chapter_some_wellFormed (resp : Except String JVal) (s : String)
    (h : download_chapter resp = some s) : wellFormedChapterSuccess resp = true := by
  unfold download_chapter at h
  repeat' split at h
  all_goals simp_all [wellFormedChapterSuccess]

/-- Claim C5: for every fetch outcome that is not a well-formed success —
non-success status code (a body whose `code` is not 0, or a non-JSON error
body), malformed JSON / raised exception (`Except.error`), missing or
non-string `content` field, timeout or connection error (also
`Except.error`) — `download_chapter` returns `none`; being a total Lean
function it never raises to its caller, mirroring the bare `except` of
run.py lines 139-140. -/
theorem claim_C5_failure_returns_none (resp : Except String JVal)
    (h : wellFormedChapterSuccess resp = false) : download_chapter resp = none := by
  cases hd : download_chapter resp with
  | none => rfl
  | some s =>
    rw [download_chapter_some_wellFormed resp s hd] at h
    exact absurd h (by simp)

/-- A failing chapter response: status `code` is 1 and no content. -/
def c5Resp : Except String JVal := Except.ok (jobj [("code", jnum 1)])

/-- Witness for C5 at a concrete failing response. -/
theorem claim_C5_witness : download_chapter c5Resp = none :=
  claim_C5_failure_returns_none c5Resp (by decide)

/-! ## Claim C7 -/

/-- Claim C7: whenever the metadata fetch fails (request raised, body not a
JSON object) or the endpoint's status `code` is not 0, `download_novel`
terminates with `sys.exit(1)` — a non-zero exit — for EVERY chapter-list
response, fetch-outcome family, completion order, concurrency and format:
the universally quantified fetch parameters cannot influence the result, so
the process exits before any chapter fetch is attempted. -/
theorem claim_C7_metadata_failure_exits (book_id : String)
    (metaResp chapResp : Except String JVal) (w : Int)
    (outcomes : Nat → FetchOutcome) (order : List Nat) (fmt : String)
    (h : metaFetchFailed metaResp = true) :
    download_novel book_id metaResp chapResp w outcomes order fmt =
      RunOutcome.exited 1 := by
  have hm : get_book_metadata book_id metaResp = Except.error 1 := by
    cases metaResp with
    | error e => rfl
    | ok data =>
      cases data with
      | jnull => rfl
      | jbool b => rfl
      | jnum n => rfl
      | jstr t => rfl
      | jarr xs => rfl
      | jobj fs =>
        rw [metaFetchFailed, Bool.not_eq_eq_eq_not, Bool.not_true] at h
        rw [get_book_metadata, h]
        simp
  unfold download_novel
  rw [hm]

/-- A metadata response with non-success status code 1. -/
def c7MetaResp : Except String JVal := Except.ok (jobj [("code", jnum 1)])

/-- Witness for C7 at a concrete failing metadata response. -/
theorem claim_C7_witness :
    download_novel "123" c7MetaResp (Except.error "unsent") 4
      (fun _ => FetchOutcome.result none) [] "txt" = RunOutcome.exited 1 :=
  claim_C7_metadata_failure_exits "123" c7MetaResp (Except.error "unsent") 4
    (fun _ => FetchOutcome.result none) [] "txt" (by decide)

/-! ## Claim C8 -/

/-- Claim C8: on a well-formed successful chapter response whose `data`
object carries the content string `s`, `download_chapter` returns `s` with
`</p>` markers replaced by newlines, then `&quot;` decoded to `"`, then
`&amp;` decoded to `&`, then `<p idx="N">` tags stripped, then surrounding
whitespace trimmed — the exact pipeline of run.py lines 135-138, in that
order. -/
theorem claim_C8_success_cleaning (fs ds : List (String × JVal)) (s : String)
    (h0 : pyEqZero (lookupField fs "code") = true)
    (h1 : lookupField fs "data" = some (jobj ds))
    (h2 : lookupField ds "content" = some (jstr s)) :
    download_chapter (Except.ok (jobj fs)) =
      some (String.mk (pyStrip (removeTags
        (replaceAll "&amp;".data "&".data
          (replaceAll "&quot;".data "\"".data
            (replaceAll "</p>".data "\n".data s.data)))))) := by
  have hin : pyIn "content" (jobj ds) = some true := by
    simp [pyIn, lookupField_any h2]
  simp only [download_chapter, h0, h1, Option.getD_some, hin, if_true, h2,
    cleanChapterContent]

/-- Concrete fields of a successful chapter response exercising every
cleaning step. -/
def c8Data : List (String × JVal) :=
  [("content", jstr "<p idx=\"3\">一&quot;二&amp;三</p> ")]

/-- The enclosing response object. -/
def c8Fields : List (String × JVal) := [("code", jnum 0), ("data", jobj c8Data)]

/-- Witness for C8 at a concrete successful response. -/
theorem claim_C8_witness :
    download_chapter (Except.ok (jobj c8Fields)) =
      some (String.mk (pyStrip (removeTags
        (replaceAll "&amp;".data "&".data
          (replaceAll "&quot;".data "\"".data
            (replaceAll "</p>".data "\n".data
              ("<p idx=\"3\">一&quot;二&amp;三</p> " : String).data)))))) :=
  claim_C8_success_cleaning c8Fields c8Data "<p idx=\"3\">一&quot;二&amp;三</p> "
    (by decide) rfl rfl

/-- The cleaning pipeline fully evaluated on the witness content: the tag
is stripped, the entities decoded, the paragraph break turned into a
newline and the surrounding whitespace trimmed. -/
theorem cleanChapterContent_eval :
    cleanChapterContent "<p idx=\"3\">一&quot;二&amp;三</p> " = "一\"二&三" := by decide

/-! ## Claim C9 -/

/-- A needle that is a prefix of the haystack is contained in it. -/
theorem charsContain_of_isPrefixOf (needle hay : List Char)
    (h : needle.isPrefixOf hay = true) : charsContain needle hay = true := by
  cases hay with
  | nil =>
    cases needle with
    | nil => rfl
    | cons c cs => simp [List.isPrefixOf] at h
  | cons c rest => rw [charsContain, h, Bool.true_or]

/-- Containment is preserved by consing on the left. -/
theorem charsContain_cons (needle : List Char) (c : Char) (rest : List Char)
    (h : charsContain needle rest = true) : charsContain needle (c :: rest) = true := by
  rw [charsContain, h, Bool.or_true]

/-- Containment is preserved by appending on the left. -/
theorem charsContain_append_left (needle pre hay : List Char)
    (h : charsContain needle hay = true) : charsContain needle (pre ++ hay) = true := by
  induction pre with
  | nil => simpa using h
  | cons c cs ih => simpa using charsContain_cons needle c (cs ++ hay) ih

/-- Claim C9 as amended: the output name is the sanitized
`book_name-author` string, and the raw book identifier is appended exactly
when the substring `未知` ("unknown") occurs in that string — which is the
case whenever the all-defaults fallback metadata is used (its author is the
sentinel `未知作者`), but also whenever any single field fell back or a real
title happens to contain `未知`. -/
theorem claim_C9_amended_unknown_substring (md : BookMeta) (book_id : String) :
    (hasUnknown (baseName md) = false → fnameOf md book_id = baseName md) ∧
    (hasUnknown (baseName md) = true →
      fnameOf md book_id = baseName md ++ "_" ++ book_id) ∧
    hasUnknown (baseName (defaultBookMeta book_id)) = true := by
  refine ⟨?_, ?_, ?_⟩
  · intro h
    simp [fnameOf, h]
  · intro h
    simp [fnameOf, h]
  · have hau : sanitize_filename (defaultBookMeta book_id).author = "未知作者" := rfl
    unfold hasUnknown baseName
    rw [hau, String.data_append, String.data_append, List.append_assoc]
    exact charsContain_append_left _ _ _ (by decide)

/-- Witness for the amended C9: a fully known metadata pair gets no id
suffix; the all-defaults fallback gets one. -/
theorem claim_C9_amended_witness :
    fnameOf { book_name := "甲", author := "乙" } "42" =
      baseName { book_name := "甲", author := "乙" } ∧
    fnameOf (defaultBookMeta "42") "42" =
      baseName (defaultBookMeta "42") ++ "_" ++ "42" :=
  ⟨(claim_C9_amended_unknown_substring { book_name := "甲", author := "乙" } "42").1
      (by decide),
   (claim_C9_amended_unknown_substring (defaultBookMeta "42") "42").2.1
      ((claim_C9_amended_unknown_substring (defaultBookMeta "42") "42").2.2)⟩

/-- A metadata response whose book name is known and real (`星辰`) but whose
`author` field is absent, so only the author falls back to the sentinel. -/
def c9MetaResp : Except String JVal :=
  Except.ok (jobj [("code", jnum 0), ("data", jarr [jobj [("book_name", jstr "星辰")]])])

/-- Counterexample to claim C9: metadata that is NOT entirely unknown — the
book name `星辰` was fetched successfully and differs from the fallback —
still gets the raw book identifier appended to the file name, because the
partially-unknown author brings the substring `未知` into the sanitized
name.  Inclusion of the identifier is therefore not equivalent to
entirely-unknown metadata. -/
theorem claim_C9_counterexample :
    get_book_metadata "7276384138653862966" c9MetaResp =
      Except.ok { book_name := "星辰", author := "未知作者" } ∧
    ({ book_name := "星辰", author := "未知作者" } : BookMeta) ≠
      defaultBookMeta "7276384138653862966" ∧
    fnameOf { book_name := "星辰", author := "未知作者" } "7276384138653862966" =
      "星辰-未知作者_7276384138653862966" :=
  ⟨rfl, by decide, rfl⟩
